import Mathlib

/-!
Verification of the MCP connection-manager core of the Agent2Agent repository.

Shallow embedding of `samples/python/agents/a2a_mcp_connector/mcp_connection_manager.py`
and `samples/python/agents/a2a_mcp_connector/jsonrpc_utils.py`.

Python values that travel through JSON (request/response envelopes, tool
descriptors, registry files, structured result dictionaries) are modelled by
the inductive `MCP.Json`; Python `None` is `Json.null`, and Python `==` on such
values is structural equality (`Json.beq`, proved lawful below).  Python dicts
are insertion-ordered association lists: assignment to an existing key updates
the value in place, a new key appends (`dictSet`), `pop` removes (`dictPop`).

Effectful steps (HTTP requests issued by `requests.post`, async contexts
entered on the `AsyncExitStack`, session initialization, subprocess concerns)
are modelled by an explicit environment `MCPEnv` that fixes each external
outcome, and every operation additionally returns the list of external
`Effect`s it performed, in order.  The count of async contexts entered on a
connection's exit stack and not yet closed is tracked in
`exit_stack_entries`; `session` records whether `self.session` is set.
-/

namespace MCP

/-- Python-dict lookup on an insertion-ordered association list: the value at
the first matching key. -/
def dictGet {κ α : Type} [DecidableEq κ] : List (κ × α) → κ → Option α
  | [], _ => none
  | (k2, v) :: rest, k => if k2 = k then some v else dictGet rest k

/-- Python `key in dict`. -/
def dictHas {κ α : Type} [DecidableEq κ] (d : List (κ × α)) (k : κ) : Bool :=
  (dictGet d k).isSome

/-- Python `dict[key] = value`: update the existing binding in place (keeping
its position) or append a new one. -/
def dictSet {κ α : Type} [DecidableEq κ] : List (κ × α) → κ → α → List (κ × α)
  | [], k, v => [(k, v)]
  | (k2, v2) :: rest, k, v =>
      if k2 = k then (k2, v) :: rest else (k2, v2) :: dictSet rest k v

/-- Python `dict.pop(key)`: drop the binding at the first matching key. -/
def dictPop {κ α : Type} [DecidableEq κ] : List (κ × α) → κ → List (κ × α)
  | [], _ => []
  | (k2, v2) :: rest, k => if k2 = k then rest else (k2, v2) :: dictPop rest k

/-- A JSON value (also the model of the Python values the connector passes
around: parsed envelopes, tool descriptors, result dictionaries).  Numbers are
modelled as integers; no claim touches fractional values. -/
inductive Json where
  | null : Json
  | bool : Bool → Json
  | num : Int → Json
  | str : String → Json
  | arr : List Json → Json
  | obj : List (String × Json) → Json
deriving Repr, Inhabited

mutual
/-- Structural equality of JSON values, the model of Python `==` on them. -/
def Json.beq : Json → Json → Bool
  | .null, .null => true
  | .bool a, .bool b => a == b
  | .num a, .num b => a == b
  | .str a, .str b => a == b
  | .arr a, .arr b => Json.beqArr a b
  | .obj a, .obj b => Json.beqObj a b
  | _, _ => false
/-- Elementwise `Json.beq` on arrays. -/
def Json.beqArr : List Json → List Json → Bool
  | [], [] => true
  | a :: as, b :: bs => Json.beq a b && Json.beqArr as bs
  | _, _ => false
/-- Keywise and valuewise `Json.beq` on object member lists. -/
def Json.beqObj : List (String × Json) → List (String × Json) → Bool
  | [], [] => true
  | (k, a) :: as, (l, b) :: bs => k == l && Json.beq a b && Json.beqObj as bs
  | _, _ => false
end

instance : BEq Json := ⟨Json.beq⟩

mutual
/-- Soundness and completeness of `Json.beq` for propositional equality. -/
theorem Json.beq_iff : ∀ a b : Json, Json.beq a b = true ↔ a = b
  | .null, .null => by simp [Json.beq]
  | .null, .bool _ => by simp [Json.beq]
  | .null, .num _ => by simp [Json.beq]
  | .null, .str _ => by simp [Json.beq]
  | .null, .arr _ => by simp [Json.beq]
  | .null, .obj _ => by simp [Json.beq]
  | .bool _, .null => by simp [Json.beq]
  | .bool _, .bool _ => by simp [Json.beq]
  | .bool _, .num _ => by simp [Json.beq]
  | .bool _, .str _ => by simp [Json.beq]
  | .bool _, .arr _ => by simp [Json.beq]
  | .bool _, .obj _ => by simp [Json.beq]
  | .num _, .null => by simp [Json.beq]
  | .num _, .bool _ => by simp [Json.beq]
  | .num _, .num _ => by simp [Json.beq]
  | .num _, .str _ => by simp [Json.beq]
  | .num _, .arr _ => by simp [Json.beq]
  | .num _, .obj _ => by simp [Json.beq]
  | .str _, .null => by simp [Json.beq]
  | .str _, .bool _ => by simp [Json.beq]
  | .str _, .num _ => by simp [Json.beq]
  | .str _, .str _ => by simp [Json.beq]
  | .str _, .arr _ => by simp [Json.beq]
  | .str _, .obj _ => by simp [Json.beq]
  | .arr _, .null => by simp [Json.beq]
  | .arr _, .bool _ => by simp [Json.beq]
  | .arr _, .num _ => by simp [Json.beq]
  | .arr _, .str _ => by simp [Json.beq]
  | .arr a, .arr b => by simp [Json.beq, Json.beqArr_iff a b]
  | .arr _, .obj _ => by simp [Json.beq]
  | .obj _, .null => by simp [Json.beq]
  | .obj _, .bool _ => by simp [Json.beq]
  | .obj _, .num _ => by simp [Json.beq]
  | .obj _, .str _ => by simp [Json.beq]
  | .obj _, .arr _ => by simp [Json.beq]
  | .obj a, .obj b => by simp [Json.beq, Json.beqObj_iff a b]
/-- Array analogue of `Json.beq_iff`. -/
theorem Json.beqArr_iff : ∀ as bs : List Json, Json.beqArr as bs = true ↔ as = bs
  | [], [] => by simp [Json.beqArr]
  | [], _ :: _ => by simp [Json.beqArr]
  | _ :: _, [] => by simp [Json.beqArr]
  | a :: as, b :: bs => by
      simp [Json.beqArr, Bool.and_eq_true, Json.beq_iff a b, Json.beqArr_iff as bs]
/-- Object analogue of `Json.beq_iff`. -/
theorem Json.beqObj_iff :
    ∀ as bs : List (String × Json), Json.beqObj as bs = true ↔ as = bs
  | [], [] => by simp [Json.beqObj]
  | [], _ :: _ => by simp [Json.beqObj]
  | _ :: _, [] => by simp [Json.beqObj]
  | (k, a) :: as, (l, b) :: bs => by
      simp [Json.beqObj, Bool.and_eq_true, Json.beq_iff a b, Json.beqObj_iff as bs,
        and_assoc]
end

instance : LawfulBEq Json where
  eq_of_beq h := (Json.beq_iff _ _).mp h
  rfl := (Json.beq_iff _ _).mpr rfl

instance : DecidableEq Json := fun a b => decidable_of_iff _ (Json.beq_iff a b)

/-- Python `value.get(key)` on a parsed JSON object (`None`, i.e. `none`, when
the receiver is not an object or the key is absent). -/
def Json.getField : Json → String → Option Json
  | .obj fields, key => dictGet fields key
  | _, _ => none

/-- Python `key in value` for a parsed JSON object: key membership, regardless
of the stored value (a `null` member still counts). -/
def Json.hasField (j : Json) (key : String) : Bool :=
  match j with
  | .obj fields => dictHas fields key
  | _ => false

/-- Whether the value is a JSON object (Python `isinstance(value, dict)`). -/
def Json.isObj : Json → Bool
  | .obj _ => true
  | _ => false

/-- Python truthiness of a JSON-shaped value. -/
def Json.truthy : Json → Bool
  | .null => false
  | .bool b => b
  | .num n => n != 0
  | .str s => s != ""
  | .arr xs => !xs.isEmpty
  | .obj fs => !fs.isEmpty

/-- Python `str()` of a JSON-shaped value as used inside the connector's
f-strings.  Scalars are rendered exactly; container renderings are abbreviated
(no claim interpolates a container into a message). -/
def pyStr : Json → String
  | .null => "None"
  | .bool true => "True"
  | .bool false => "False"
  | .num n => toString n
  | .str s => s
  | .arr _ => "[...]"
  | .obj _ => "\x7b...\x7d"

/-- Python `str()` where the value may be the `None` produced by a missing
`.get` (both a missing key and a stored `null` print as `None`). -/
def pyStrOpt : Option Json → String
  | none => "None"
  | some j => pyStr j

/-- Python type name of a JSON-shaped value, as it appears in an
`AttributeError` message. -/
def pyTypeName : Json → String
  | .null => "NoneType"
  | .bool _ => "bool"
  | .num _ => "int"
  | .str _ => "str"
  | .arr _ => "list"
  | .obj _ => "dict"

/-- Message of the `AttributeError` raised by `value.get(...)` on a non-dict. -/
def pyAttrErrNoGet (j : Json) : String :=
  "'" ++ pyTypeName j ++ "' object has no attribute 'get'"

/-! ## jsonrpc_utils.py -/

/-- Reserved JSON-RPC error code for unparsable response text. -/
def PARSE_ERROR : Int := -32700

/-- Reserved JSON-RPC error code for an invalid request or envelope. -/
def INVALID_REQUEST : Int := -32600

/-- Reserved JSON-RPC error code for an unknown method. -/
def METHOD_NOT_FOUND : Int := -32601

/-- Reserved JSON-RPC error code for invalid parameters. -/
def INVALID_PARAMS : Int := -32602

/-- Reserved JSON-RPC error code for an internal error. -/
def INTERNAL_ERROR : Int := -32603

/-- The `JsonRpcError` exception: code, message and data are whatever values
the code stored there (Python `None` is `Json.null`). -/
structure JsonRpcError where
  code : Json
  message : Json
  data : Json
deriving Repr, DecidableEq

/-- Outcome of handing raw response text to the JSON decoder (`json.loads`):
a decode failure carrying the raw text, or the decoded value. -/
inductive RawText where
  | invalid : String → RawText
  | valid : Json → RawText
deriving Repr, DecidableEq

deriving instance DecidableEq for Except

/-- The id check of `parse_jsonrpc_response`: an `expected_id` was supplied and
`response.get("id")` differs from it (a missing id and a `null` id both
differ from every expected string, as in Python where both read as `None`). -/
def idMismatch (response : Json) (expected_id : Option String) : Bool :=
  match expected_id with
  | none => false
  | some eid => decide (response.getField "id" ≠ some (Json.str eid))

/-- Shallow embedding of `parse_jsonrpc_response` (jsonrpc_utils.py, lines
113-186).  A raised `JsonRpcError` is the `Except.error` branch; the returned
`result` value is the `Except.ok` branch. -/
def parse_jsonrpc_response (response_text : RawText) (expected_id : Option String) :
    Except JsonRpcError Json :=
  match response_text with
  | .invalid text =>
      .error ⟨.num PARSE_ERROR, .str "Oops, couldn't parse the JSON response", .str text⟩
  | .valid response =>
      if !response.isObj then
        .error ⟨.num INVALID_REQUEST,
          .str "This doesn't look like a proper JSON-RPC response object", response⟩
      else if response.getField "jsonrpc" ≠ some (Json.str "2.0") then
        .error ⟨.num INVALID_REQUEST,
          .str "Missing the 'jsonrpc': '2.0' field - not a valid JSON-RPC response",
          response⟩
      else if idMismatch response expected_id then
        .error ⟨.num INVALID_REQUEST,
          .str ("ID mismatch! Got '" ++ pyStrOpt (response.getField "id") ++
            "' but expected '" ++ expected_id.getD "" ++ "'"), response⟩
      else if response.hasField "error" then
        match response.getField "error" with
        | some (.obj efs) =>
            .error ⟨(dictGet efs "code").getD (.num INTERNAL_ERROR),
              (dictGet efs "message").getD
                (.str "Something went wrong but the server didn't say what"),
              (dictGet efs "data").getD .null⟩
        | _ =>
            .error ⟨.num INTERNAL_ERROR, .str "The error field isn't formatted right",
              response⟩
      else if !response.hasField "result" then
        .error ⟨.num INVALID_REQUEST,
          .str "This response doesn't have either a 'result' or an 'error' - what gives?",
          response⟩
      else
        .ok ((response.getField "result").getD .null)

/-! ## mcp_connection_manager.py: the single-server connection -/

/-- An external step a connection operation performs, in order of occurrence:
an HTTP request issued by `requests.post` (url and timeout in seconds), an
async transport context entered on the exit stack (`sse_client` or
`stdio_client`), a `ClientSession` context entered on the exit stack, a
`session.initialize()` handshake, a method call on an established session, an
`exit_stack.aclose()`, or a registry write by `save_registry`. -/
inductive Effect where
  | httpPost : String → Nat → Effect
  | enterTransportContext : String → Effect
  | enterSessionContext : Effect
  | initSession : Effect
  | sessionCall : String → Effect
  | closeExitStack : Effect
  | saveRegistry : Effect
deriving Repr, DecidableEq

/-- Outcome of one `requests.post` call: the exception's `str(e)` when it
raised, else the HTTP status code and the response body (as the outcome of
decoding it). -/
inductive HttpOutcome where
  | raised : String → HttpOutcome
  | ok : Nat → RawText → HttpOutcome
deriving Repr, DecidableEq

/-- The external world a connection attempt runs against: whether the optional
MCP client libraries imported (`HAS_MCP_CLIENTS`), the outcome of each HTTP
request the fallback path can issue, whether each rich-client step succeeds,
the value each session call returns (or the raised exception's text), and the
string standing in for `uuid.uuid4()` in generated request ids. -/
structure MCPEnv where
  hasMCPClients : Bool
  pingHttp : HttpOutcome
  listToolsHttp : HttpOutcome
  execHttp : HttpOutcome
  enterTransportOk : Bool
  enterSessionOk : Bool
  initOk : Bool
  sessionList : Except String Json
  sessionCallTool : Except String Json
  freshId : String
deriving Repr

/-- State of one `MCPServerConnection`.  `session` records whether
`self.session` is set; `exit_stack_entries` counts the async contexts entered
on `self.exit_stack` during connect attempts and not yet closed (the stdio
`args`/`env` kwargs are forwarded only into the spawn parameters and are kept
inside `connection_params`). -/
structure MCPServerConnection where
  server_id : String
  server_url : String
  transport_type : String
  connection_params : List (String × Json)
  available_tools : List Json
  session : Bool
  connection_active : Bool
  managed_exit_stack : Bool
  command : Json
  exit_stack_entries : Nat
deriving Repr, DecidableEq

/-- ASCII lowercasing of one character (transport names are ASCII, so this
matches Python `str.lower` on them). -/
def asciiLowerChar (c : Char) : Char :=
  if 65 ≤ c.toNat ∧ c.toNat ≤ 90 then Char.ofNat (c.toNat + 32) else c

/-- Python `s.lower()` on the ASCII strings the connector lowercases. -/
def pyLower (s : String) : String := ⟨s.data.map asciiLowerChar⟩

/-- Constructor of `MCPServerConnection` (lines 50-85): lowercases the
transport, stores the kwargs as connection params, and for stdio grabs
`kwargs.get("command", "")`.  `managed` is `exit_stack is None`: whether the
connection owns its own exit stack. -/
def MCPServerConnection.init (server_id server_url transport_type : String)
    (managed : Bool) (kwargs : List (String × Json)) : MCPServerConnection :=
  { server_id := server_id
    server_url := server_url
    transport_type := pyLower transport_type
    connection_params := kwargs
    available_tools := []
    session := false
    connection_active := false
    managed_exit_stack := managed
    command := if pyLower transport_type = "stdio"
      then (dictGet kwargs "command").getD (.str "") else .str ""
    exit_stack_entries := 0 }

/-- Shallow embedding of `MCPServerConnection.disconnect` (lines 465-489):
only an active connection is torn down, and the exit stack is closed only when
the connection manages its own stack; an inactive connection is left exactly
as it is. -/
def MCPServerConnection.disconnect (c : MCPServerConnection) :
    MCPServerConnection × List Effect :=
  if c.connection_active then
    if c.managed_exit_stack then
      ({ c with connection_active := false, session := false, exit_stack_entries := 0 },
        [Effect.closeExitStack])
    else
      ({ c with connection_active := false, session := false }, [])
  else (c, [])

/-- The value stored from `tools_result.get("tools", [])`.  The cached tool
list is typed as a list; a remote reporting a non-array `tools` value would be
stored raw by the Python code and breaks its later iteration — no claim
reaches that shape, and the model maps it to the empty default. -/
def toolsOf (result : Json) : List Json :=
  match result.getField "tools" with
  | some (.arr xs) => xs
  | _ => []

/-- Shallow embedding of `MCPServerConnection._list_tools_direct` (lines
242-287): one HTTP list request; every failure is swallowed (HTTP error,
raised exception, or an error from `parse_jsonrpc_response`) leaving the
cached tools unchanged; a parsed result refreshes the cache.  The Python
return value (the list) is unused by its callers, so the model returns the
updated connection. -/
def MCPServerConnection.listToolsDirect (env : MCPEnv) (c : MCPServerConnection) :
    MCPServerConnection × List Effect :=
  let request_id := c.server_id ++ "-list-tools-" ++ env.freshId
  match env.listToolsHttp with
  | .raised _ => (c, [Effect.httpPost c.server_url 10])
  | .ok status body =>
      if status ≥ 400 then (c, [Effect.httpPost c.server_url 10])
      else
        match parse_jsonrpc_response body (some request_id) with
        | .ok result => ({ c with available_tools := toolsOf result },
            [Effect.httpPost c.server_url 10])
        | .error _ => (c, [Effect.httpPost c.server_url 10])

/-- Shallow embedding of `MCPServerConnection._list_tools` (lines 218-240):
a `tools/list` call on the session; failures are swallowed with the cache
unchanged (connect ignores the returned list). -/
def MCPServerConnection.listToolsSession (env : MCPEnv) (c : MCPServerConnection) :
    MCPServerConnection × List Effect :=
  if !c.session then (c, [])
  else
    match env.sessionList with
    | .ok result => ({ c with available_tools := toolsOf result },
        [Effect.sessionCall "tools/list"])
    | .error _ => (c, [Effect.sessionCall "tools/list"])

/-- Shallow embedding of `MCPServerConnection.connect` (lines 87-216).  Each
rich-client step that raises lands in the `except` handler, which calls
`disconnect` (a no-op while `connection_active` is still false) and returns
false; in the fallback jsonrpc path an HTTP error status or an unparsable body
returns false directly, and any parsed JSON body — even a JSON-RPC error
envelope or one lacking the version marker, which only logs a warning — leads
to `connection_active := true` and a true return. -/
def MCPServerConnection.connect (env : MCPEnv) (c : MCPServerConnection) :
    Bool × MCPServerConnection × List Effect :=
  if c.connection_active then (true, c, [])
  else if c.transport_type = "jsonrpc" then
    if env.hasMCPClients then
      if !env.enterSessionOk then
        let (c1, tr) := MCPServerConnection.disconnect c
        (false, c1, [Effect.enterSessionContext] ++ tr)
      else
        let c1 := { c with session := true, exit_stack_entries := c.exit_stack_entries + 1 }
        if !env.initOk then
          let (c2, tr) := MCPServerConnection.disconnect c1
          (false, c2, [Effect.enterSessionContext, Effect.initSession] ++ tr)
        else
          let (c2, tr) := MCPServerConnection.listToolsSession env c1
          (true, { c2 with connection_active := true },
            [Effect.enterSessionContext, Effect.initSession] ++ tr)
    else
      match env.pingHttp with
      | .raised _ =>
          let (c1, tr) := MCPServerConnection.disconnect c
          (false, c1, [Effect.httpPost c.server_url 5] ++ tr)
      | .ok status body =>
          if status ≥ 400 then (false, c, [Effect.httpPost c.server_url 5])
          else
            match body with
            | .invalid _ => (false, c, [Effect.httpPost c.server_url 5])
            | .valid _ =>
                let (c1, tr) := MCPServerConnection.listToolsDirect env c
                (true, { c1 with connection_active := true },
                  Effect.httpPost c.server_url 5 :: tr)
  else if c.transport_type = "sse" then
    if !env.hasMCPClients then (false, c, [])
    else if !env.enterTransportOk then
      let (c1, tr) := MCPServerConnection.disconnect c
      (false, c1, [Effect.enterTransportContext "sse"] ++ tr)
    else
      let c1 := { c with exit_stack_entries := c.exit_stack_entries + 1 }
      if !env.enterSessionOk then
        let (c2, tr) := MCPServerConnection.disconnect c1
        (false, c2, [Effect.enterTransportContext "sse", Effect.enterSessionContext] ++ tr)
      else
        let c2 := { c1 with session := true, exit_stack_entries := c1.exit_stack_entries + 1 }
        if !env.initOk then
          let (c3, tr) := MCPServerConnection.disconnect c2
          (false, c3, [Effect.enterTransportContext "sse", Effect.enterSessionContext,
            Effect.initSession] ++ tr)
        else
          let (c3, tr) := MCPServerConnection.listToolsSession env c2
          (true, { c3 with connection_active := true },
            [Effect.enterTransportContext "sse", Effect.enterSessionContext,
              Effect.initSession] ++ tr)
  else if c.transport_type = "stdio" then
    if !env.hasMCPClients then (false, c, [])
    else if !c.command.truthy then (false, c, [])
    else if !env.enterTransportOk then
      let (c1, tr) := MCPServerConnection.disconnect c
      (false, c1, [Effect.enterTransportContext "stdio"] ++ tr)
    else
      let c1 := { c with exit_stack_entries := c.exit_stack_entries + 1 }
      if !env.enterSessionOk then
        let (c2, tr) := MCPServerConnection.disconnect c1
        (false, c2, [Effect.enterTransportContext "stdio", Effect.enterSessionContext] ++ tr)
      else
        let c2 := { c1 with session := true, exit_stack_entries := c1.exit_stack_entries + 1 }
        if !env.initOk then
          let (c3, tr) := MCPServerConnection.disconnect c2
          (false, c3, [Effect.enterTransportContext "stdio", Effect.enterSessionContext,
            Effect.initSession] ++ tr)
        else
          let (c3, tr) := MCPServerConnection.listToolsSession env c2
          (true, { c3 with connection_active := true },
            [Effect.enterTransportContext "stdio", Effect.enterSessionContext,
              Effect.initSession] ++ tr)
  else (false, c, [])

/-- Shallow embedding of `MCPServerConnection._execute_tool_json_rpc_direct`
(lines 328-413).  A raised post lands in the outer handler; a status below 400
goes through `parse_jsonrpc_response` (whose parse-error branch subsumes the
dead `json.JSONDecodeError` handler, since the parser converts decode failures
to `JsonRpcError` itself); on a parsed result, `result.get("output", result)`
returns the `output` member or the whole object — and raises `AttributeError`
into the outer handler when the result is not an object.  An HTTP error status
reports the decoded body (or the raw text) as details. -/
def MCPServerConnection.execDirect (env : MCPEnv) (c : MCPServerConnection)
    (tool_id : String) (_input_data : Json) : Json × List Effect :=
  let request_id := c.server_id ++ "-" ++ tool_id ++ "-" ++ env.freshId
  match env.execHttp with
  | .raised msg =>
      (.obj [("status", .str "error"), ("tool_id", .str tool_id),
        ("message", .str ("Error calling MCP tool: " ++ msg))],
       [Effect.httpPost c.server_url 30])
  | .ok status body =>
      if status < 400 then
        match parse_jsonrpc_response body (some request_id) with
        | .ok result =>
            match result with
            | .obj rfs =>
                (.obj [("status", .str "success"), ("tool_id", .str tool_id),
                  ("result", (dictGet rfs "output").getD (.obj rfs))],
                 [Effect.httpPost c.server_url 30])
            | _ =>
                (.obj [("status", .str "error"), ("tool_id", .str tool_id),
                  ("message", .str ("Error calling MCP tool: " ++ pyAttrErrNoGet result))],
                 [Effect.httpPost c.server_url 30])
        | .error e =>
            (.obj [("status", .str "error"), ("tool_id", .str tool_id),
              ("message", .str ("MCP tool returned JSON-RPC error: " ++ pyStr e.message)),
              ("code", e.code), ("details", e.data)],
             [Effect.httpPost c.server_url 30])
      else
        let details := match body with
          | .valid j => j
          | .invalid t => .str t
        (.obj [("status", .str "error"), ("tool_id", .str tool_id),
          ("message", .str ("MCP tool returned HTTP error code " ++ toString status)),
          ("details", details)],
         [Effect.httpPost c.server_url 30])

/-- Shallow embedding of `MCPServerConnection._execute_tool_with_session`
(lines 415-463).  The environment's `sessionCallTool` stands for the session
call with its output already extracted (the newer/older client API probing of
lines 434-449 selects how the output is read, not what it is); a raised call
lands in the handler that wraps it into an error result. -/
def MCPServerConnection.execWithSession (env : MCPEnv) (c : MCPServerConnection)
    (tool_id : String) (_input_data : Json) : Json × List Effect :=
  if !c.session then
    (.obj [("status", .str "error"),
      ("message", .str ("No active session for MCP server " ++ c.server_id))], [])
  else
    match env.sessionCallTool with
    | .ok output =>
        (.obj [("status", .str "success"), ("tool_id", .str tool_id),
          ("result", output)], [Effect.sessionCall "call_tool"])
    | .error msg =>
        (.obj [("status", .str "error"), ("tool_id", .str tool_id),
          ("message", .str ("Error executing tool with session: " ++ msg))],
         [Effect.sessionCall "call_tool"])

/-- The dispatch of `MCPServerConnection.execute_tool` after the connection
check (lines 308-326): direct JSON-RPC when the transport is jsonrpc and no
rich clients imported, else the session when one is set, else an error. -/
def MCPServerConnection.execDispatch (env : MCPEnv) (c : MCPServerConnection)
    (tool_id : String) (input_data : Json) : Json × List Effect :=
  if c.transport_type == "jsonrpc" && !env.hasMCPClients then
    MCPServerConnection.execDirect env c tool_id input_data
  else if c.session then
    MCPServerConnection.execWithSession env c tool_id input_data
  else
    (.obj [("status", .str "error"),
      ("message", .str ("No active session for MCP server " ++ c.server_id))], [])

/-- Shallow embedding of `MCPServerConnection.execute_tool` (lines 289-326):
an inactive connection first attempts `connect`, returning an error result
when that fails; otherwise the call is dispatched by transport. -/
def MCPServerConnection.execute_tool (env : MCPEnv) (c : MCPServerConnection)
    (tool_id : String) (input_data : Json) : Json × MCPServerConnection × List Effect :=
  if !c.connection_active then
    match MCPServerConnection.connect env c with
    | (false, c1, tr) =>
        (.obj [("status", .str "error"),
          ("message", .str ("Failed to connect to MCP server " ++ c.server_id))], c1, tr)
    | (true, c1, tr) =>
        let (result, tr2) := MCPServerConnection.execDispatch env c1 tool_id input_data
        (result, c1, tr ++ tr2)
  else
    let (result, tr2) := MCPServerConnection.execDispatch env c tool_id input_data
    (result, c, tr2)

/-! ## mcp_connection_manager.py: the manager -/

/-- State of the `MCPConnectionManager`: the server connections and the
tool-to-server routing table, both insertion-ordered dicts, plus the optional
registry path.  Routing keys come from `tool.get("name")` values and so may be
arbitrary JSON; routing values are the server ids the code stored (strings
when written by `register_server`/`register_tool`, arbitrary after a registry
load). -/
structure MCPConnectionManager where
  servers : List (String × MCPServerConnection)
  tool_to_server_map : List (Json × Json)
  registry_path : Option String
deriving Repr, DecidableEq

/-- A fresh manager (`__init__`, lines 500-507). -/
def MCPConnectionManager.init : MCPConnectionManager :=
  { servers := [], tool_to_server_map := [], registry_path := none }

/-- The registry write of `save_registry`, when a path is set (lines 566-600):
one `Effect.saveRegistry` marks it; it never mutates in-memory state. -/
def saveTrace (m : MCPConnectionManager) : List Effect :=
  if m.registry_path.isSome then [Effect.saveRegistry] else []

/-- Shallow embedding of `MCPConnectionManager.register_server` (lines
601-665): an existing id short-circuits; otherwise a connection is constructed
(sharing the manager's exit stack) and `connect` is attempted — a failure
returns an error result with the manager untouched; success stores the
connection, seeds a routing entry for each reported tool with a truthy name,
and persists. -/
def register_server (env : MCPEnv) (m : MCPConnectionManager)
    (server_id server_url server_description transport_type : String)
    (kwargs : List (String × Json)) : Json × MCPConnectionManager × List Effect :=
  if dictHas m.servers server_id then
    (.obj [("status", .str "already_exists"),
      ("message", .str ("We already have a server called '" ++ server_id ++ "'"))],
     m, [])
  else
    let server := MCPServerConnection.init server_id server_url transport_type false kwargs
    match MCPServerConnection.connect env server with
    | (false, _, tr) =>
        (.obj [("status", .str "error"),
          ("message", .str ("Couldn't reach the server at " ++ server_url ++
            " - is it running?"))], m, tr)
    | (true, server1, tr) =>
        let servers1 := dictSet m.servers server_id server1
        let toolMap1 := server1.available_tools.foldl (fun acc tool =>
          match tool.getField "name" with
          | some name => if name.truthy then dictSet acc name (.str server_id) else acc
          | none => acc) m.tool_to_server_map
        let m1 := { m with servers := servers1, tool_to_server_map := toolMap1 }
        (.obj [("status", .str "success"),
          ("server", .obj [("id", .str server_id), ("url", .str server_url),
            ("description", .str server_description),
            ("transport_type", .str transport_type),
            ("tools", .num (server1.available_tools.length : Int))])],
         m1, tr ++ saveTrace m)

/-- Shallow embedding of `MCPConnectionManager.register_tool` (lines 729-757):
the server must exist; the routing entry is then set (last registration wins)
and the registry persisted. -/
def register_tool (m : MCPConnectionManager) (tool_id server_id : String) :
    Json × MCPConnectionManager × List Effect :=
  if !dictHas m.servers server_id then
    (.obj [("status", .str "error"),
      ("message", .str ("Server '" ++ server_id ++ "' is not registered"))], m, [])
  else
    let m1 := { m with
      tool_to_server_map := dictSet m.tool_to_server_map (.str tool_id) (.str server_id) }
    (.obj [("status", .str "success"),
      ("message", .str ("Tool '" ++ tool_id ++ "' registered with server '" ++
        server_id ++ "'"))], m1, saveTrace m)

/-- Python `self.servers[server_id]` guarded by `server_id in self.servers`,
for a routing value of arbitrary shape: only a string value can name a server
in the string-keyed dict. -/
def serverFor (m : MCPConnectionManager) (sval : Json) : Option MCPServerConnection :=
  match sval with
  | .str s => dictGet m.servers s
  | _ => none

/-- One iteration of the `list_tools` loop (lines 697-725) for a routing entry
`(tool_id, server_id)`: skipped when the server is gone; otherwise the cached
descriptor whose `name` equals the tool id, or a fabricated basic descriptor,
merged with the server id and transport (dict-literal merge: an existing key
is overwritten in place, a new one appended). -/
def toolEntry (m : MCPConnectionManager) (q : Json × Json) : Option Json :=
  match serverFor m q.2 with
  | none => none
  | some server =>
      let tool_details :=
        match server.available_tools.find? (fun t => t.getField "name" == some q.1) with
        | some t => t
        | none => Json.obj [("name", q.1),
            ("description", Json.str ("Tool on server " ++ pyStr q.2))]
      let fields := match tool_details with
        | .obj fs => fs
        | _ => []
      some (.obj (dictSet (dictSet fields "server_id" q.2)
        "transport_type" (.str server.transport_type)))

/-- Shallow embedding of `MCPConnectionManager.list_tools` (lines 688-727):
the routing table joined against each owning server's cached tools, in table
order, entries with a missing server silently skipped. -/
def list_tools (m : MCPConnectionManager) : Json :=
  .obj [("tools", .arr (m.tool_to_server_map.filterMap (toolEntry m)))]

/-- Shallow embedding of `MCPConnectionManager.execute_tool` (lines 759-793):
an unrouted tool and a routed-but-missing server each return an error result
without any external step; otherwise the owning connection executes the tool
(its in-place mutation written back under its key). -/
def MCPConnectionManager.execute_tool (env : MCPEnv) (m : MCPConnectionManager)
    (tool_id : String) (input_data : Json) : Json × MCPConnectionManager × List Effect :=
  match dictGet m.tool_to_server_map (Json.str tool_id) with
  | none =>
      (.obj [("status", .str "error"),
        ("message", .str ("Tool '" ++ tool_id ++ "' is not registered with any server"))],
       m, [])
  | some sval =>
      match sval, serverFor m sval with
      | .str s, some server =>
          let (result, server1, tr) :=
            MCPServerConnection.execute_tool env server tool_id input_data
          (result, { m with servers := dictSet m.servers s server1 }, tr)
      | _, _ =>
          (.obj [("status", .str "error"),
            ("message", .str ("Server '" ++ pyStr sval ++ "' for tool '" ++ tool_id ++
              "' is not registered"))], m, [])

/-- Shallow embedding of `MCPConnectionManager.remove_server` (lines 795-841):
a missing id errors; otherwise the server is disconnected and popped, every
routing entry whose value equals the id pruned (in table order), the registry
persisted, and the removed tool ids reported. -/
def remove_server (m : MCPConnectionManager) (server_id : String) :
    Json × MCPConnectionManager × List Effect :=
  match dictGet m.servers server_id with
  | none =>
      (.obj [("status", .str "error"),
        ("message", .str ("Server '" ++ server_id ++ "' is not registered"))], m, [])
  | some server =>
      let (server1, tr) := MCPServerConnection.disconnect server
      let removed := m.tool_to_server_map.filter (fun q => q.2 == Json.str server_id)
      let kept := m.tool_to_server_map.filter (fun q => !(q.2 == Json.str server_id))
      let m1 := { m with servers := dictPop m.servers server_id, tool_to_server_map := kept }
      (.obj [("status", .str "success"),
        ("message", .str ("Successfully removed server '" ++ server_id ++ "'")),
        ("removed_server", .obj [("id", .str server_id), ("url", .str server1.server_url),
          ("transport_type", .str server1.transport_type)]),
        ("removed_tools", .arr (removed.map (fun q => q.1)))],
       m1, tr ++ saveTrace m)

/-- Shallow embedding of `MCPConnectionManager.remove_tool` (lines 843-874):
a missing tool errors; otherwise only its routing entry is popped and the
registry persisted. -/
def remove_tool (m : MCPConnectionManager) (tool_id : String) :
    Json × MCPConnectionManager × List Effect :=
  match dictGet m.tool_to_server_map (Json.str tool_id) with
  | none =>
      (.obj [("status", .str "error"),
        ("message", .str ("Tool '" ++ tool_id ++ "' is not registered"))], m, [])
  | some sval =>
      let m1 := { m with tool_to_server_map := dictPop m.tool_to_server_map (.str tool_id) }
      (.obj [("status", .str "success"),
        ("message", .str ("Successfully removed tool '" ++ tool_id ++ "'")),
        ("removed_tool", .obj [("id", .str tool_id), ("server_id", sval)])],
       m1, saveTrace m)

/-! ## Registry persistence (lines 517-600) -/

/-- Registry-file key for a routing-table key: `json.dump` keeps string keys
and stringifies the scalar ones (container keys, which it rejects, are
rendered abbreviated and out of modelled scope). -/
def jsonKey : Json → String
  | .str s => s
  | j => pyStr j

/-- The `registry_data` dictionary `save_registry` writes (lines 577-594):
per server its url, transport type and connection params, plus the routing
table. -/
def registryData (m : MCPConnectionManager) : Json :=
  .obj [("servers", .obj (m.servers.map (fun p =>
      (p.1, Json.obj [("url", Json.str p.2.server_url),
        ("transport_type", Json.str p.2.transport_type),
        ("connection_params", Json.obj p.2.connection_params)])))),
    ("tool_mappings", .obj (m.tool_to_server_map.map (fun q => (jsonKey q.1, q.2))))]

/-- Shallow embedding of `MCPConnectionManager.save_registry` (lines 566-600):
without a path it reports failure; with one it writes `registryData` (the
model returns the written value; an I/O failure would only flip the flag). -/
def save_registry (m : MCPConnectionManager) : Bool × Option Json :=
  match m.registry_path with
  | none => (false, none)
  | some _ => (true, some (registryData m))

/-- Shape check for one persisted server entry: a dict whose `url` and
`transport_type`, when present, are strings and whose `connection_params`,
when present, is a dict — the shapes the rehydrating constructor call of
lines 547-553 accepts without raising. -/
def serverEntryWF (v : Json) : Bool :=
  v.isObj &&
  (match v.getField "url" with
   | none => true
   | some (.str _) => true
   | some _ => false) &&
  (match v.getField "transport_type" with
   | none => true
   | some (.str _) => true
   | some _ => false) &&
  (match v.getField "connection_params" with
   | none => true
   | some (.obj _) => true
   | some _ => false)

/-- Shape check for a whole decoded registry file: shapes on which the
rehydration loop of `load_registry` runs to completion.  On any other shape
the Python loop raises into the `except` handler and the call reports failure
(the model then returns the already-cleared state; the partial prefix the
Python loop may have built before raising is not distinguished — no claim
touches malformed files). -/
def registryWF (registry_data : Json) : Bool :=
  registry_data.isObj &&
  (match registry_data.getField "servers" with
   | none => true
   | some (.obj fields) => fields.all (fun p => serverEntryWF p.2)
   | some _ => false) &&
  (match registry_data.getField "tool_mappings" with
   | none => true
   | some (.obj _) => true
   | some _ => false)

/-- Rehydration of one persisted server entry (lines 545-553): a fresh
connection on the manager's exit stack from the stored url, transport and
params (state resets: no session, inactive, empty tool cache). -/
def loadServer (p : String × Json) : String × MCPServerConnection :=
  (p.1, MCPServerConnection.init p.1
    (match p.2.getField "url" with | some (.str u) => u | _ => "")
    (match p.2.getField "transport_type" with | some (.str t) => t | _ => "jsonrpc")
    false
    (match p.2.getField "connection_params" with | some (.obj kw) => kw | _ => []))

/-- Shallow embedding of `MCPConnectionManager.load_registry` (lines 517-564)
over a file system mapping each path to the decode outcome of its content
(`none`: `os.path.exists` is false).  A given path is stored first; no path,
a missing file, and an unreadable or malformed file all return false — only a
well-shaped decoded registry returns true, with servers rehydrated and the
routing table replaced. -/
def load_registry (fs : String → Option RawText) (m : MCPConnectionManager)
    (path : Option String) : Bool × MCPConnectionManager :=
  let m1 := match path with
    | some p => { m with registry_path := some p }
    | none => m
  match m1.registry_path with
  | none => (false, m1)
  | some p =>
      match fs p with
      | none => (false, m1)
      | some (.invalid _) => (false, m1)
      | some (.valid registry_data) =>
          if !registryWF registry_data then
            (false, { m1 with servers := [], tool_to_server_map := [] })
          else
            let serverFields := match registry_data.getField "servers" with
              | some (.obj fields) => fields
              | _ => []
            let toolFields := match registry_data.getField "tool_mappings" with
              | some (.obj fields) => fields
              | _ => []
            (true, { m1 with
              servers := serverFields.map loadServer,
              tool_to_server_map := toolFields.map (fun q => (Json.str q.1, q.2)) })

/-! ## Operation sequences and invariants -/

/-- One registry-mutating public operation of the manager, with the external
environment a registration runs against. -/
inductive MgrOp where
  | regServer : MCPEnv → String → String → String → String →
      List (String × Json) → MgrOp
  | regTool : String → String → MgrOp
  | rmServer : String → MgrOp
  | rmTool : String → MgrOp

/-- The manager state after one operation (results and effect traces
dropped). -/
def applyOp (m : MCPConnectionManager) : MgrOp → MCPConnectionManager
  | .regServer env sid url d t kw => (register_server env m sid url d t kw).2.1
  | .regTool tid sid => (register_tool m tid sid).2.1
  | .rmServer sid => (remove_server m sid).2.1
  | .rmTool tid => (remove_tool m tid).2.1

/-- No dangling routes: every routing entry's value is the id of a server
present in the server set. -/
def noDangling (m : MCPConnectionManager) : Prop :=
  ∀ q ∈ m.tool_to_server_map, ∃ s, q.2 = Json.str s ∧ dictHas m.servers s = true

/-- The fields of a server connection that the registry file persists. -/
def serverPersisted (c : MCPServerConnection) : String × String × List (String × Json) :=
  (c.server_url, c.transport_type, c.connection_params)

/-! ## Concrete test fixtures -/

/-- Fallback mode (rich client libraries absent) with every external step
failing: an unreachable remote. -/
def envUnreachable : MCPEnv :=
  { hasMCPClients := false
    pingHttp := .raised "Connection refused"
    listToolsHttp := .raised "Connection refused"
    execHttp := .raised "Connection refused"
    enterTransportOk := false
    enterSessionOk := false
    initOk := false
    sessionList := .error "no session"
    sessionCallTool := .error "no session"
    freshId := "u1" }

/-- Rich-client mode in which the transport channel and the session context
both open but the initialization handshake raises. -/
def envInitFails : MCPEnv :=
  { hasMCPClients := true
    pingHttp := .raised "unused"
    listToolsHttp := .raised "unused"
    execHttp := .raised "unused"
    enterTransportOk := true
    enterSessionOk := true
    initOk := false
    sessionList := .error "unused"
    sessionCallTool := .error "unused"
    freshId := "u1" }

/-- Fallback mode whose ping returns HTTP 200 with a body that parses as JSON
but is a JSON-RPC error envelope lacking the version marker. -/
def envErrorBodyPing : MCPEnv :=
  { hasMCPClients := false
    pingHttp := .ok 200 (.valid (.obj [("error",
      .obj [("code", .num (-32601)), ("message", .str "Method not found")])]))
    listToolsHttp := .raised "Connection refused"
    execHttp := .raised "Connection refused"
    enterTransportOk := false
    enterSessionOk := false
    initOk := false
    sessionList := .error "no session"
    sessionCallTool := .error "no session"
    freshId := "u1" }

/-- Fallback mode whose ping succeeds and whose list request reports one tool
named forecast (the list request id matches `weather-list-tools-u1`). -/
def envForecast : MCPEnv :=
  { hasMCPClients := false
    pingHttp := .ok 200 (.valid (.obj [("jsonrpc", .str "2.0"),
      ("id", .str "weather-ping"), ("result", .obj [])]))
    listToolsHttp := .ok 200 (.valid (.obj [("jsonrpc", .str "2.0"),
      ("id", .str "weather-list-tools-u1"),
      ("result", .obj [("tools", .arr [.obj [("name", .str "forecast"),
        ("description", .str "Weather forecast")]])])]))
    execHttp := .raised "unused"
    enterTransportOk := false
    enterSessionOk := false
    initOk := false
    sessionList := .error "unused"
    sessionCallTool := .error "unused"
    freshId := "u1" }

/-- Fallback mode whose execute request returns HTTP 200 with a well-formed
success envelope (matching id `srv-echo-u1`) whose result is a plain string. -/
def envStrResult : MCPEnv :=
  { hasMCPClients := false
    pingHttp := .ok 200 (.valid (.obj [("jsonrpc", .str "2.0"),
      ("id", .str "srv-ping"), ("result", .obj [])]))
    listToolsHttp := .raised "Connection refused"
    execHttp := .ok 200 (.valid (.obj [("jsonrpc", .str "2.0"),
      ("id", .str "srv-echo-u1"), ("result", .str "hello")]))
    enterTransportOk := false
    enterSessionOk := false
    initOk := false
    sessionList := .error "unused"
    sessionCallTool := .error "unused"
    freshId := "u1" }

/-- Fallback mode like `envStrResult` but whose execute result is an object
carrying an output member. -/
def envObjResult : MCPEnv :=
  { hasMCPClients := false
    pingHttp := .ok 200 (.valid (.obj [("jsonrpc", .str "2.0"),
      ("id", .str "srv-ping"), ("result", .obj [])]))
    listToolsHttp := .raised "Connection refused"
    execHttp := .ok 200 (.valid (.obj [("jsonrpc", .str "2.0"),
      ("id", .str "srv-echo-u1"), ("result", .obj [("output", .str "out")])]))
    enterTransportOk := false
    enterSessionOk := false
    initOk := false
    sessionList := .error "unused"
    sessionCallTool := .error "unused"
    freshId := "u1" }

/-- A standalone sse connection owning its exit stack. -/
def sseConn : MCPServerConnection :=
  MCPServerConnection.init "srv" "http://localhost:9999/sse" "sse" true []

/-- A standalone jsonrpc connection owning its exit stack. -/
def jsonrpcConn : MCPServerConnection :=
  MCPServerConnection.init "srv" "http://localhost:8500" "jsonrpc" true []

/-- A manager already holding one connected server and one route. -/
def mgrWeather : MCPConnectionManager :=
  { servers := [("weather",
      MCPServerConnection.init "weather" "http://localhost:8500" "jsonrpc" false [])]
    tool_to_server_map := [(Json.str "forecast", Json.str "weather")]
    registry_path := none }

/-- A register, a manual tool registration and a tool removal, run from an
empty manager. -/
def opsC5 : List MgrOp :=
  [MgrOp.regServer envForecast "weather" "http://localhost:8500" "Weather" "jsonrpc" [],
   MgrOp.regTool "alerts" "weather",
   MgrOp.rmTool "forecast"]

/-! ## Helper lemmas on the dict operations -/

theorem dictGet_set_eq {κ α : Type} [DecidableEq κ] (d : List (κ × α)) (k : κ) (v : α) :
    dictGet (dictSet d k v) k = some v := by
  induction d with
  | nil => simp [dictSet, dictGet]
  | cons p rest ih =>
      obtain ⟨k2, v2⟩ := p
      by_cases h : k2 = k
      · simp [dictSet, dictGet, h]
      · simp [dictSet, dictGet, h, ih]

theorem dictGet_set_ne {κ α : Type} [DecidableEq κ] (d : List (κ × α)) {k s : κ} (v : α)
    (h : s ≠ k) : dictGet (dictSet d k v) s = dictGet d s := by
  have hks : ¬ k = s := fun he => h he.symm
  induction d with
  | nil => simp [dictSet, dictGet, hks]
  | cons p rest ih =>
      obtain ⟨k2, v2⟩ := p
      by_cases h2 : k2 = k
      · have h3 : ¬ k2 = s := by rw [h2]; exact hks
        simp [dictSet, dictGet, h2, h3, hks, h]
      · by_cases h3 : k2 = s
        · simp [dictSet, dictGet, h2, h3, hks, h]
        · simp [dictSet, dictGet, h2, h3, ih]

theorem dictHas_set_of {κ α : Type} [DecidableEq κ] {d : List (κ × α)} {s : κ}
    (k : κ) (v : α) (h : dictHas d s = true) : dictHas (dictSet d k v) s = true := by
  by_cases he : s = k
  · subst he
    simp [dictHas, dictGet_set_eq]
  · simpa [dictHas, dictGet_set_ne d v he] using h

theorem mem_dictSet {κ α : Type} [DecidableEq κ] {d : List (κ × α)} {k : κ} {v : α}
    {q : κ × α} (h : q ∈ dictSet d k v) : q ∈ d ∨ q = (k, v) := by
  induction d with
  | nil => exact Or.inr (by simpa [dictSet] using h)
  | cons p rest ih =>
      obtain ⟨k2, v2⟩ := p
      by_cases h2 : k2 = k
      · simp only [dictSet, if_pos h2] at h
        rcases List.mem_cons.mp h with h3 | h3
        · exact Or.inr (by rw [h3, h2])
        · exact Or.inl (List.mem_cons_of_mem _ h3)
      · simp only [dictSet, if_neg h2] at h
        rcases List.mem_cons.mp h with h3 | h3
        · exact Or.inl (by rw [h3]; exact List.mem_cons_self _ _)
        · rcases ih h3 with h4 | h4
          · exact Or.inl (List.mem_cons_of_mem _ h4)
          · exact Or.inr h4

theorem dictGet_pop_ne {κ α : Type} [DecidableEq κ] (d : List (κ × α)) {k s : κ}
    (h : s ≠ k) : dictGet (dictPop d k) s = dictGet d s := by
  have hks : ¬ k = s := fun he => h he.symm
  induction d with
  | nil => simp [dictPop]
  | cons p rest ih =>
      obtain ⟨k2, v2⟩ := p
      by_cases h2 : k2 = k
      · have h3 : ¬ k2 = s := by rw [h2]; exact hks
        simp [dictPop, dictGet, h2, h3, hks]
      · by_cases h3 : k2 = s
        · simp [dictPop, dictGet, h2, h3, hks, h]
        · simp [dictPop, dictGet, h2, h3, ih]

theorem mem_dictPop {κ α : Type} [DecidableEq κ] {d : List (κ × α)} {k : κ}
    {q : κ × α} (h : q ∈ dictPop d k) : q ∈ d := by
  induction d with
  | nil => simp [dictPop] at h
  | cons p rest ih =>
      obtain ⟨k2, v2⟩ := p
      by_cases h2 : k2 = k
      · simp only [dictPop, if_pos h2] at h
        exact List.mem_cons_of_mem _ h
      · simp only [dictPop, if_neg h2] at h
        rcases List.mem_cons.mp h with h3 | h3
        · rw [h3]; exact List.mem_cons_self _ _
        · exact List.mem_cons_of_mem _ (ih h3)

/-- Membership after seeding the routing table with a server's reported tools
(the `for tool in server.available_tools` loop of `register_server`): an entry
was already present or routes to the new server. -/
theorem mem_seedTools {tools : List Json} {map0 : List (Json × Json)} {sid : String}
    {q : Json × Json}
    (h : q ∈ tools.foldl (fun acc tool =>
      match tool.getField "name" with
      | some name => if name.truthy then dictSet acc name (Json.str sid) else acc
      | none => acc) map0) :
    q ∈ map0 ∨ q.2 = Json.str sid := by
  induction tools generalizing map0 with
  | nil => exact Or.inl h
  | cons t rest ih =>
      rw [List.foldl_cons] at h
      rcases ih h with h2 | h2
      · cases ht : t.getField "name" with
        | none => simp only [ht] at h2; exact Or.inl h2
        | some name =>
            simp only [ht] at h2
            by_cases hn : name.truthy = true
            · rw [if_pos hn] at h2
              rcases mem_dictSet h2 with h3 | h3
              · exact Or.inl h3
              · exact Or.inr (by rw [h3])
            · rw [if_neg hn] at h2
              exact Or.inl h2
      · exact Or.inr h2

/-- Preservation of the no-dangling-routes invariant by each public registry
operation. -/
theorem noDangling_applyOp {m : MCPConnectionManager} (hm : noDangling m)
    (op : MgrOp) : noDangling (applyOp m op) := by
  cases op with
  | regServer env sid url d t kw =>
      simp only [applyOp, register_server]
      by_cases hex : dictHas m.servers sid = true
      · simpa [hex] using hm
      · rw [if_neg (by simpa using hex)]
        rcases hc : MCPServerConnection.connect env
            (MCPServerConnection.init sid url t false kw) with ⟨ok, server1, tr⟩
        cases ok
        · simpa using hm
        · intro q hq
          simp only at hq
          rcases mem_seedTools hq with h2 | h2
          · rcases hm q h2 with ⟨s, hs1, hs2⟩
            exact ⟨s, hs1, dictHas_set_of _ _ hs2⟩
          · refine ⟨sid, h2, ?_⟩
            simp [dictHas, dictGet_set_eq]
  | regTool tid sid =>
      simp only [applyOp, register_tool]
      by_cases hex : dictHas m.servers sid = true
      · rw [if_neg (by simpa using hex)]
        intro q hq
        simp only at hq
        rcases mem_dictSet hq with h2 | h2
        · rcases hm q h2 with ⟨s, hs1, hs2⟩
          exact ⟨s, hs1, hs2⟩
        · exact ⟨sid, by rw [h2], hex⟩
      · simpa [hex] using hm
  | rmServer sid =>
      simp only [applyOp, remove_server]
      cases hg : dictGet m.servers sid with
      | none => simpa using hm
      | some server =>
          intro q hq
          simp only at hq
          have hq2 := List.mem_filter.mp hq
          rcases hm q hq2.1 with ⟨s, hs1, hs2⟩
          refine ⟨s, hs1, ?_⟩
          have hne : s ≠ sid := by
            intro he
            have : (q.2 == Json.str sid) = true := by
              rw [hs1, he]; exact beq_self_eq_true _
            simp [this] at hq2
          rw [dictHas, dictGet_pop_ne m.servers hne]
          exact hs2
  | rmTool tid =>
      simp only [applyOp, remove_tool]
      cases hg : dictGet m.tool_to_server_map (Json.str tid) with
      | none => simpa using hm
      | some sval =>
          intro q hq
          simp only at hq
          exact hm q (mem_dictPop hq)

/-! ## The claims -/

/-- C1.  Registration is atomic: whenever the `connect()` attempted inside
`register_server` for a fresh server id returns false, the manager is returned
exactly as it was — same server set, same routing table, same path — and the
call's value is the connect-failure error result (the embedding is total, so
nothing is raised). -/
theorem claim_C1_registration_atomic (env : MCPEnv) (m : MCPConnectionManager)
    (server_id server_url descr transport : String) (kwargs : List (String × Json))
    (hnew : dictHas m.servers server_id = false)
    (hfail : (MCPServerConnection.connect env
      (MCPServerConnection.init server_id server_url transport false kwargs)).1 = false) :
    (register_server env m server_id server_url descr transport kwargs).2.1 = m ∧
    (register_server env m server_id server_url descr transport kwargs).1 =
      Json.obj [("status", Json.str "error"),
        ("message", Json.str ("Couldn't reach the server at " ++ server_url ++
          " - is it running?"))] := by
  rcases hc : MCPServerConnection.connect env
      (MCPServerConnection.init server_id server_url transport false kwargs) with ⟨ok, c1, tr⟩
  rw [hc] at hfail
  simp only at hfail
  subst hfail
  simp [register_server, hnew, hc]

/-- Witness for C1: a concrete failed registration leaves the empty manager
empty and returns the connect-failure result. -/
theorem claim_C1_witness :
    (register_server envUnreachable MCPConnectionManager.init "s1"
      "http://localhost:9999" "" "jsonrpc" []).2.1 = MCPConnectionManager.init ∧
    (register_server envUnreachable MCPConnectionManager.init "s1"
      "http://localhost:9999" "" "jsonrpc" []).1 =
      Json.obj [("status", Json.str "error"),
        ("message", Json.str ("Couldn't reach the server at " ++ "http://localhost:9999" ++
          " - is it running?"))] :=
  claim_C1_registration_atomic envUnreachable MCPConnectionManager.init "s1"
    "http://localhost:9999" "" "jsonrpc" [] (by decide) (by decide)

/-- Helper for C2: in fallback mode a jsonrpc connect always begins by issuing
the HTTP ping against the stored url, whatever then happens. -/
theorem connect_jsonrpc_fallback_head (env : MCPEnv) (c : MCPServerConnection)
    (htr : c.transport_type = "jsonrpc") (hmcp : env.hasMCPClients = false)
    (hact : c.connection_active = false) :
    (MCPServerConnection.connect env c).2.2.head? = some (Effect.httpPost c.server_url 5) := by
  cases hping : env.pingHttp with
  | raised msg =>
      simp [MCPServerConnection.connect, hact, htr, hmcp, hping,
        MCPServerConnection.disconnect]
  | ok status body =>
      by_cases hst : status ≥ 400
      · simp [MCPServerConnection.connect, hact, htr, hmcp, hping, hst]
      · cases body with
        | invalid t =>
            simp [MCPServerConnection.connect, hact, htr, hmcp, hping, hst]
        | valid j =>
            simp [MCPServerConnection.connect, hact, htr, hmcp, hping, hst,
              MCPServerConnection.listToolsDirect]

/-- Helper for C2: in rich-client mode a jsonrpc connect always begins by
entering the session context on the exit stack. -/
theorem connect_jsonrpc_rich_head (env : MCPEnv) (c : MCPServerConnection)
    (htr : c.transport_type = "jsonrpc") (hmcp : env.hasMCPClients = true)
    (hact : c.connection_active = false) :
    (MCPServerConnection.connect env c).2.2.head? = some Effect.enterSessionContext := by
  by_cases hs : env.enterSessionOk = true
  · by_cases hi : env.initOk = true
    · cases hlist : env.sessionList with
      | ok r =>
          simp [MCPServerConnection.connect, hact, htr, hmcp, hs, hi, hlist,
            MCPServerConnection.listToolsSession]
      | error e =>
          simp [MCPServerConnection.connect, hact, htr, hmcp, hs, hi, hlist,
            MCPServerConnection.listToolsSession]
    · simp [MCPServerConnection.connect, hact, htr, hmcp, hs, hi,
        MCPServerConnection.disconnect]
  · simp [MCPServerConnection.connect, hact, htr, hmcp, hs,
      MCPServerConnection.disconnect]

/-- Helper for C2: a stdio connect whose command is falsy returns false with
no external activity at all, in both import modes. -/
theorem connect_stdio_nocmd (env : MCPEnv) (c : MCPServerConnection)
    (htr : c.transport_type = "stdio") (hcmd : c.command.truthy = false)
    (hact : c.connection_active = false) :
    MCPServerConnection.connect env c = (false, c, []) := by
  cases hmcp : env.hasMCPClients
  · simp [MCPServerConnection.connect, hact, htr, hmcp]
  · simp [MCPServerConnection.connect, hact, htr, hmcp, hcmd]

/-- C2 counterexample: registering the url banana — which begins with no
recognized scheme — over the jsonrpc transport in fallback mode does return an
error result, but only after handing that url to the HTTP layer: the external
trace is exactly the issued ping, where the claim requires that no probe, open
or network activity occur before a validation error is returned (and the
result is the generic connect-failure message, not a validation message). -/
theorem claim_C2_counterexample :
    (register_server envUnreachable MCPConnectionManager.init "s1" "banana" "" "jsonrpc"
      []).1.getField "status" = some (Json.str "error") ∧
    (register_server envUnreachable MCPConnectionManager.init "s1" "banana" "" "jsonrpc"
      []).1.getField "message" = some (Json.str ("Couldn't reach the server at " ++
        "banana" ++ " - is it running?")) ∧
    (register_server envUnreachable MCPConnectionManager.init "s1" "banana" "" "jsonrpc"
      []).2.2 = [Effect.httpPost "banana" 5] := by
  decide

/-- C2 as amended: `register_server` performs no syntactic url validation —
for a fresh id over the jsonrpc transport the very first external step is
always the connection attempt itself (the HTTP ping in fallback mode, the
session open in rich-client mode), whatever the url looks like; only the stdio
half of the claim holds: with no command in the params, connect fails before
any external activity and register returns an error result with an empty
trace. -/
theorem claim_C2_amended (env : MCPEnv) (m : MCPConnectionManager)
    (server_id server_url descr : String) (kwargs : List (String × Json))
    (hnew : dictHas m.servers server_id = false) :
    (env.hasMCPClients = false →
      (register_server env m server_id server_url descr "jsonrpc" kwargs).2.2.head? =
        some (Effect.httpPost server_url 5)) ∧
    (env.hasMCPClients = true →
      (register_server env m server_id server_url descr "jsonrpc" kwargs).2.2.head? =
        some Effect.enterSessionContext) ∧
    (dictGet kwargs "command" = none →
      (register_server env m server_id server_url descr "stdio" kwargs).1.getField
        "status" = some (Json.str "error") ∧
      (register_server env m server_id server_url descr "stdio" kwargs).2.2 = []) := by
  refine ⟨fun hmcp => ?_, fun hmcp => ?_, fun hcmd => ?_⟩
  · have hh := connect_jsonrpc_fallback_head env
      (MCPServerConnection.init server_id server_url "jsonrpc" false kwargs)
      rfl hmcp rfl
    rcases hc : MCPServerConnection.connect env
        (MCPServerConnection.init server_id server_url "jsonrpc" false kwargs)
      with ⟨ok, c1, tr⟩
    rw [hc] at hh
    cases ok
    · simpa [register_server, hnew, hc] using hh
    · simp only [register_server, hnew, Bool.false_eq_true, if_false, hc]
      simp only at hh
      simp [List.head?_append, hh, MCPServerConnection.init]
  · have hh := connect_jsonrpc_rich_head env
      (MCPServerConnection.init server_id server_url "jsonrpc" false kwargs)
      rfl hmcp rfl
    rcases hc : MCPServerConnection.connect env
        (MCPServerConnection.init server_id server_url "jsonrpc" false kwargs)
      with ⟨ok, c1, tr⟩
    rw [hc] at hh
    cases ok
    · simpa [register_server, hnew, hc] using hh
    · simp only [register_server, hnew, Bool.false_eq_true, if_false, hc]
      simp only at hh
      simp [List.head?_append, hh, MCPServerConnection.init]
  · have hc := connect_stdio_nocmd env
      (MCPServerConnection.init server_id server_url "stdio" false kwargs)
      rfl (by simp [MCPServerConnection.init, hcmd, Json.truthy]) rfl
    simp [register_server, hnew, hc, Json.getField, dictGet]

/-- Witness for the amended C2 at a concrete environment and manager. -/
theorem claim_C2_witness :
    (register_server envUnreachable MCPConnectionManager.init "s2" "ftp://weird" ""
      "jsonrpc" []).2.2.head? = some (Effect.httpPost "ftp://weird" 5) ∧
    (register_server envUnreachable MCPConnectionManager.init "s2" "http://x" ""
      "stdio" []).2.2 = [] :=
  ⟨(claim_C2_amended envUnreachable MCPConnectionManager.init "s2" "ftp://weird" "" []
      (by decide)).1 rfl,
   ((claim_C2_amended envUnreachable MCPConnectionManager.init "s2" "http://x" "" []
      (by decide)).2.2 rfl).2⟩

/-- C3.  Evaluation at the failing input: an sse connection owning its exit
stack whose transport channel and session context open but whose
initialization handshake raises.  `connect` returns false and the state is
inactive — but the two async contexts entered on the exit stack remain (the
`disconnect()` called by the handler is a no-op while `connection_active` is
false), `self.session` stays set, and no close of the stack appears in the
trace: the dangling-channel half of the claim fails on the code. -/
theorem claim_C3_failing_eval :
    (MCPServerConnection.connect envInitFails sseConn).1 = false ∧
    (MCPServerConnection.connect envInitFails sseConn).2.1.connection_active = false ∧
    (MCPServerConnection.connect envInitFails sseConn).2.1.session = true ∧
    (MCPServerConnection.connect envInitFails sseConn).2.1.exit_stack_entries = 2 ∧
    (MCPServerConnection.connect envInitFails sseConn).2.2.count Effect.closeExitStack = 0 := by
  decide

/-- C4 counterexample: loading from a path the file system lacks, on a manager
already holding a server and a route, returns false (the same failure
indicator the function's contract uses for real errors) and leaves the
non-empty server set and routing table as they were — not the empty snapshot
the claim requires. -/
theorem claim_C4_counterexample :
    (load_registry (fun _ => none) mgrWeather (some "registry.json")).1 = false ∧
    (load_registry (fun _ => none) mgrWeather (some "registry.json")).2.servers ≠ [] ∧
    (load_registry (fun _ => none) mgrWeather
      (some "registry.json")).2.tool_to_server_map ≠ [] := by
  decide

/-- C4 as amended: loading from a missing path does not raise and mutates
nothing but the stored registry path — it returns false, and the in-memory
server set and routing table are left unchanged rather than emptied. -/
theorem claim_C4_amended (fs : String → Option RawText) (m : MCPConnectionManager)
    (p : String) (hmiss : fs p = none) :
    load_registry fs m (some p) = (false, { m with registry_path := some p }) := by
  simp [load_registry, hmiss]

/-- Witness for the amended C4 at a concrete manager and path. -/
theorem claim_C4_witness :
    load_registry (fun _ => none) MCPConnectionManager.init (some "registry.json") =
      (false, { MCPConnectionManager.init with registry_path := some "registry.json" }) :=
  claim_C4_amended (fun _ => none) MCPConnectionManager.init "registry.json" rfl

/-- C5.  No dangling routes: after any finite sequence of register-server,
register-tool, remove-server and remove-tool operations starting from the
empty manager, every routing entry's value names a server present in the
server set. -/
theorem claim_C5_no_dangling_routes (ops : List MgrOp) :
    noDangling (ops.foldl applyOp MCPConnectionManager.init) := by
  have haux : ∀ (l : List MgrOp) (m : MCPConnectionManager), noDangling m →
      noDangling (l.foldl applyOp m) := by
    intro l
    induction l with
    | nil => intro m hm; exact hm
    | cons op rest ih =>
        intro m hm
        rw [List.foldl_cons]
        exact ih _ (noDangling_applyOp hm op)
  refine haux ops _ ?_
  intro q hq
  simp [MCPConnectionManager.init] at hq

/-- Witness for C5: after a register, a manual tool registration and a tool
removal, the surviving route still points at a present server. -/
theorem claim_C5_witness :
    ∃ s, (Json.str "alerts", Json.str "weather").2 = Json.str s ∧
      dictHas (opsC5.foldl applyOp MCPConnectionManager.init).servers s = true :=
  claim_C5_no_dangling_routes opsC5 ⟨Json.str "alerts", Json.str "weather"⟩ (by decide)

/-- Helper for C8: a string differs from another when their first characters
differ. -/
theorem string_head_ne {x y : String} (cx cy : Char) (hx : x.data.head? = some cx)
    (hy : y.data.head? = some cy) (hne : cx ≠ cy) : x ≠ y := by
  intro h
  rw [h, hy] at hx
  exact hne (Option.some.inj hx).symm

/-- Helper for C8: appending after a string keeps its first character. -/
theorem appendStr_data_head (s : String) (c : Char) (rest : List Char)
    (h : s.data = c :: rest) (t : String) :
    ∃ rest2, (s ++ t).data = c :: rest2 :=
  ⟨rest ++ t.data, by rw [String.data_append, h]; rfl⟩

/-- Helper for C8: the id-mismatch message always begins with the letter I,
whatever got and expected ids are interpolated. -/
theorem idMismatchMsg_data (a b : String) :
    ∃ rest, ("ID mismatch! Got '" ++ a ++ "' but expected '" ++ b ++ "'").data =
      'I' :: rest := by
  obtain ⟨r1, h1⟩ := appendStr_data_head "ID mismatch! Got '" 'I'
    ("D mismatch! Got '".data) rfl a
  obtain ⟨r2, h2⟩ := appendStr_data_head _ 'I' r1 h1 "' but expected '"
  obtain ⟨r3, h3⟩ := appendStr_data_head _ 'I' r2 h2 b
  exact appendStr_data_head _ 'I' r3 h3 "'"

/-- Helper for C8: the id-mismatch message never equals the missing-version
protocol message. -/
theorem idMismatchMsg_ne_version (a b : String) :
    ("ID mismatch! Got '" ++ a ++ "' but expected '" ++ b ++ "'") ≠
      "Missing the 'jsonrpc': '2.0' field - not a valid JSON-RPC response" := by
  obtain ⟨rest, h⟩ := idMismatchMsg_data a b
  exact string_head_ne 'I' 'M' (by rw [h]; rfl) rfl (by decide)

/-- Helper for C8: the id-mismatch message never equals the
missing-result-and-error protocol message. -/
theorem idMismatchMsg_ne_neither (a b : String) :
    ("ID mismatch! Got '" ++ a ++ "' but expected '" ++ b ++ "'") ≠
      "This response doesn't have either a 'result' or an 'error' - what gives?" := by
  obtain ⟨rest, h⟩ := idMismatchMsg_data a b
  exact string_head_ne 'I' 'T' (by rw [h]; rfl) rfl (by decide)

/-- C8 counterexample: an HTTP 200 whose body is a well-formed JSON-RPC
success envelope with a plain-string result.  The parser resolves it to the
raw string, but the fallback execute path then returns an error result with no
result member — `result.get("output", result)` raises on a non-dict — where the
claim requires the raw result to be returned on success. -/
theorem claim_C8_counterexample :
    parse_jsonrpc_response
      (.valid (.obj [("jsonrpc", Json.str "2.0"), ("id", Json.str "srv-echo-u1"),
        ("result", Json.str "hello")])) (some "srv-echo-u1") = .ok (Json.str "hello") ∧
    (MCPServerConnection.execDirect envStrResult jsonrpcConn "echo"
      (Json.obj [])).1.getField "status" = some (Json.str "error") ∧
    (MCPServerConnection.execDirect envStrResult jsonrpcConn "echo"
      (Json.obj [])).1.getField "result" = none := by
  decide

/-- C8 as amended: the response parser fails with the parse-error code on
undecodable text; with the invalid-request protocol error when the envelope
lacks the version marker, and when it has neither a result nor an error
member; with an id-mismatch error — distinct from both protocol errors by its
message — when an expected id is supplied and differs; it re-surfaces a remote
error payload as a structured error carrying the remote code, message and
data (with the documented defaults); and on success it returns the raw
`result` value.  The output-member extraction happens in the direct-execute
caller, which returns the `output` member of an object result, the whole
object when that member is absent, and an error result (via its generic
exception handler) when the result is not an object. -/
theorem claim_C8_amended :
    (∀ (text : String) (eid : Option String),
      parse_jsonrpc_response (.invalid text) eid =
        .error ⟨.num PARSE_ERROR, .str "Oops, couldn't parse the JSON response",
          .str text⟩) ∧
    (∀ (fs : List (String × Json)) (eid : Option String),
      (Json.obj fs).getField "jsonrpc" ≠ some (Json.str "2.0") →
      parse_jsonrpc_response (.valid (.obj fs)) eid =
        .error ⟨.num INVALID_REQUEST,
          .str "Missing the 'jsonrpc': '2.0' field - not a valid JSON-RPC response",
          .obj fs⟩) ∧
    (∀ (fs : List (String × Json)) (eid : Option String),
      (Json.obj fs).getField "jsonrpc" = some (Json.str "2.0") →
      idMismatch (.obj fs) eid = false →
      (Json.obj fs).hasField "error" = false →
      (Json.obj fs).hasField "result" = false →
      parse_jsonrpc_response (.valid (.obj fs)) eid =
        .error ⟨.num INVALID_REQUEST,
          .str "This response doesn't have either a 'result' or an 'error' - what gives?",
          .obj fs⟩) ∧
    (∀ (fs : List (String × Json)) (eidv : String),
      (Json.obj fs).getField "jsonrpc" = some (Json.str "2.0") →
      (Json.obj fs).getField "id" ≠ some (Json.str eidv) →
      parse_jsonrpc_response (.valid (.obj fs)) (some eidv) =
        .error ⟨.num INVALID_REQUEST,
          .str ("ID mismatch! Got '" ++ pyStrOpt ((Json.obj fs).getField "id") ++
            "' but expected '" ++ eidv ++ "'"), .obj fs⟩ ∧
      ("ID mismatch! Got '" ++ pyStrOpt ((Json.obj fs).getField "id") ++
        "' but expected '" ++ eidv ++ "'") ≠
        "Missing the 'jsonrpc': '2.0' field - not a valid JSON-RPC response" ∧
      ("ID mismatch! Got '" ++ pyStrOpt ((Json.obj fs).getField "id") ++
        "' but expected '" ++ eidv ++ "'") ≠
        "This response doesn't have either a 'result' or an 'error' - what gives?") ∧
    (∀ (fs efs : List (String × Json)) (eid : Option String),
      (Json.obj fs).getField "jsonrpc" = some (Json.str "2.0") →
      idMismatch (.obj fs) eid = false →
      (Json.obj fs).getField "error" = some (.obj efs) →
      parse_jsonrpc_response (.valid (.obj fs)) eid =
        .error ⟨(dictGet efs "code").getD (.num INTERNAL_ERROR),
          (dictGet efs "message").getD
            (.str "Something went wrong but the server didn't say what"),
          (dictGet efs "data").getD .null⟩) ∧
    (∀ (fs : List (String × Json)) (eid : Option String) (r : Json),
      (Json.obj fs).getField "jsonrpc" = some (Json.str "2.0") →
      idMismatch (.obj fs) eid = false →
      (Json.obj fs).hasField "error" = false →
      (Json.obj fs).getField "result" = some r →
      parse_jsonrpc_response (.valid (.obj fs)) eid = .ok r) ∧
    (∀ (env : MCPEnv) (c : MCPServerConnection) (tool_id : String) (input : Json)
      (st : Nat) (body : RawText) (rfs : List (String × Json)),
      env.execHttp = .ok st body → st < 400 →
      parse_jsonrpc_response body
        (some (c.server_id ++ "-" ++ tool_id ++ "-" ++ env.freshId)) = .ok (.obj rfs) →
      MCPServerConnection.execDirect env c tool_id input =
        (.obj [("status", .str "success"), ("tool_id", .str tool_id),
          ("result", (dictGet rfs "output").getD (.obj rfs))],
         [Effect.httpPost c.server_url 30])) ∧
    (∀ (env : MCPEnv) (c : MCPServerConnection) (tool_id : String) (input : Json)
      (st : Nat) (body : RawText) (r : Json),
      env.execHttp = .ok st body → st < 400 →
      parse_jsonrpc_response body
        (some (c.server_id ++ "-" ++ tool_id ++ "-" ++ env.freshId)) = .ok r →
      r.isObj = false →
      (MCPServerConnection.execDirect env c tool_id input).1.getField "status" =
        some (Json.str "error")) := by
  refine ⟨fun text eid => rfl, ?_, ?_, ?_, ?_, ?_, ?_, ?_⟩
  · intro fs eid hv
    simp [parse_jsonrpc_response, Json.isObj, hv]
  · intro fs eid hv hm herr hres
    simp [parse_jsonrpc_response, Json.isObj, hv, hm, herr, hres]
  · intro fs eidv hv hid
    have hmm : idMismatch (Json.obj fs) (some eidv) = true := by
      simp [idMismatch, hid]
    refine ⟨?_, idMismatchMsg_ne_version _ _, idMismatchMsg_ne_neither _ _⟩
    simp [parse_jsonrpc_response, Json.isObj, hv, hmm]
  · intro fs efs eid hv hm herr
    have hhas : (Json.obj fs).hasField "error" = true := by
      simp only [Json.hasField, dictHas]
      rw [show dictGet fs "error" = some (Json.obj efs) from herr]
      rfl
    simp [parse_jsonrpc_response, Json.isObj, hv, hm, hhas, herr]
  · intro fs eid r hv hm herr hres
    have hhasr : (Json.obj fs).hasField "result" = true := by
      simp only [Json.hasField, dictHas]
      rw [show dictGet fs "result" = some r from hres]
      rfl
    simp [parse_jsonrpc_response, Json.isObj, hv, hm, herr, hhasr, hres]
  · intro env c tool_id input st body rfs hhttp hst hparse
    simp [MCPServerConnection.execDirect, hhttp, hst, hparse]
  · intro env c tool_id input st body r hhttp hst hparse hr
    cases r with
    | obj rfs => simp [Json.isObj] at hr
    | null =>
        simp [MCPServerConnection.execDirect, hhttp, hst, hparse, Json.getField, dictGet]
    | bool b =>
        simp [MCPServerConnection.execDirect, hhttp, hst, hparse, Json.getField, dictGet]
    | num n =>
        simp [MCPServerConnection.execDirect, hhttp, hst, hparse, Json.getField, dictGet]
    | str s =>
        simp [MCPServerConnection.execDirect, hhttp, hst, hparse, Json.getField, dictGet]
    | arr xs =>
        simp [MCPServerConnection.execDirect, hhttp, hst, hparse, Json.getField, dictGet]

/-- Witness for the amended C8: each behavior at a concrete envelope. -/
theorem claim_C8_witness :
    parse_jsonrpc_response (.invalid "not json") none =
      .error ⟨.num PARSE_ERROR, .str "Oops, couldn't parse the JSON response",
        .str "not json"⟩ ∧
    parse_jsonrpc_response (.valid (.obj [("result", Json.null)])) none =
      .error ⟨.num INVALID_REQUEST,
        .str "Missing the 'jsonrpc': '2.0' field - not a valid JSON-RPC response",
        .obj [("result", Json.null)]⟩ ∧
    parse_jsonrpc_response
      (.valid (.obj [("jsonrpc", Json.str "2.0"), ("id", Json.str "r1")])) (some "r1") =
      .error ⟨.num INVALID_REQUEST,
        .str "This response doesn't have either a 'result' or an 'error' - what gives?",
        .obj [("jsonrpc", Json.str "2.0"), ("id", Json.str "r1")]⟩ ∧
    parse_jsonrpc_response
      (.valid (.obj [("jsonrpc", Json.str "2.0"), ("id", Json.str "other")]))
      (some "r1") =
      .error ⟨.num INVALID_REQUEST,
        .str ("ID mismatch! Got '" ++
          pyStrOpt ((Json.obj [("jsonrpc", Json.str "2.0"),
            ("id", Json.str "other")]).getField "id") ++
          "' but expected '" ++ "r1" ++ "'"),
        .obj [("jsonrpc", Json.str "2.0"), ("id", Json.str "other")]⟩ ∧
    parse_jsonrpc_response
      (.valid (.obj [("jsonrpc", Json.str "2.0"), ("id", Json.str "r1"),
        ("error", .obj [("code", Json.num (-32601)),
          ("message", Json.str "Method not found"), ("data", Json.str "d")])]))
      (some "r1") =
      .error ⟨(dictGet [("code", Json.num (-32601)),
          ("message", Json.str "Method not found"), ("data", Json.str "d")]
          "code").getD (.num INTERNAL_ERROR),
        (dictGet [("code", Json.num (-32601)), ("message", Json.str "Method not found"),
          ("data", Json.str "d")] "message").getD
          (.str "Something went wrong but the server didn't say what"),
        (dictGet [("code", Json.num (-32601)), ("message", Json.str "Method not found"),
          ("data", Json.str "d")] "data").getD .null⟩ ∧
    parse_jsonrpc_response
      (.valid (.obj [("jsonrpc", Json.str "2.0"), ("id", Json.str "r1"),
        ("result", .obj [("output", Json.str "out")])])) (some "r1") =
      .ok (.obj [("output", Json.str "out")]) ∧
    MCPServerConnection.execDirect envObjResult jsonrpcConn "echo" (Json.obj []) =
      (.obj [("status", .str "success"), ("tool_id", .str "echo"),
        ("result", (dictGet [("output", Json.str "out")] "output").getD
          (.obj [("output", Json.str "out")]))],
       [Effect.httpPost jsonrpcConn.server_url 30]) ∧
    (MCPServerConnection.execDirect envStrResult jsonrpcConn "echo"
      (Json.obj [])).1.getField "status" = some (Json.str "error") := by
  have h := claim_C8_amended
  refine ⟨h.1 "not json" none, ?_, ?_, ?_, ?_, ?_, ?_, ?_⟩
  · exact h.2.1 [("result", Json.null)] none (by decide)
  · exact h.2.2.1 [("jsonrpc", Json.str "2.0"), ("id", Json.str "r1")] (some "r1")
      (by decide) (by decide) (by decide) (by decide)
  · exact (h.2.2.2.1 [("jsonrpc", Json.str "2.0"), ("id", Json.str "other")] "r1"
      (by decide) (by decide)).1
  · exact h.2.2.2.2.1 [("jsonrpc", Json.str "2.0"), ("id", Json.str "r1"),
      ("error", .obj [("code", Json.num (-32601)),
        ("message", Json.str "Method not found"), ("data", Json.str "d")])]
      [("code", Json.num (-32601)), ("message", Json.str "Method not found"),
        ("data", Json.str "d")] (some "r1") (by decide) (by decide) (by decide)
  · exact h.2.2.2.2.2.1 [("jsonrpc", Json.str "2.0"), ("id", Json.str "r1"),
      ("result", .obj [("output", Json.str "out")])] (some "r1")
      (.obj [("output", Json.str "out")]) (by decide) (by decide) (by decide) (by decide)
  · exact h.2.2.2.2.2.2.1 envObjResult jsonrpcConn "echo" (Json.obj []) 200
      (.valid (.obj [("jsonrpc", .str "2.0"), ("id", .str "srv-echo-u1"),
        ("result", .obj [("output", .str "out")])]))
      [("output", Json.str "out")] rfl (by decide) (by decide)
  · exact h.2.2.2.2.2.2.2 envStrResult jsonrpcConn "echo" (Json.obj []) 200
      (.valid (.obj [("jsonrpc", .str "2.0"), ("id", .str "srv-echo-u1"),
        ("result", .str "hello")])) (.str "hello") rfl (by decide) (by decide) (by decide)

/-- C9.  In the fallback jsonrpc path, connect returns true exactly when the
HTTP ping comes back with a status below 400 and a body that decodes as JSON —
with no condition at all on what that JSON is (a JSON-RPC error envelope or a
body lacking the version marker only logs a warning) — and the connection is
marked active exactly when true is returned; an HTTP error status, an
undecodable body, or a raised request are the only false cases. -/
theorem claim_C9_fallback_connect (env : MCPEnv) (c : MCPServerConnection)
    (htr : c.transport_type = "jsonrpc") (hmcp : env.hasMCPClients = false)
    (hact : c.connection_active = false) :
    ((MCPServerConnection.connect env c).1 = true ↔
      ∃ status body, env.pingHttp = HttpOutcome.ok status body ∧ status < 400 ∧
        ∃ j, body = RawText.valid j) ∧
    (MCPServerConnection.connect env c).2.1.connection_active =
      (MCPServerConnection.connect env c).1 := by
  cases hping : env.pingHttp with
  | raised msg =>
      constructor
      · simp [MCPServerConnection.connect, hact, htr, hmcp, hping,
          MCPServerConnection.disconnect]
      · simp [MCPServerConnection.connect, hact, htr, hmcp, hping,
          MCPServerConnection.disconnect]
  | ok status body =>
      by_cases hst : status ≥ 400
      · constructor
        · simp [MCPServerConnection.connect, hact, htr, hmcp, hping, hst]
        · simp [MCPServerConnection.connect, hact, htr, hmcp, hping, hst]
      · cases body with
        | invalid t =>
            constructor
            · simp [MCPServerConnection.connect, hact, htr, hmcp, hping, hst]
            · simp [MCPServerConnection.connect, hact, htr, hmcp, hping, hst]
        | valid j =>
            have h1 : (MCPServerConnection.connect env c).1 = true := by
              simp [MCPServerConnection.connect, hact, htr, hmcp, hping, hst]
            constructor
            · rw [h1]
              simp only [true_iff]
              exact ⟨status, RawText.valid j, rfl, by omega, j, rfl⟩
            · rw [h1]
              simp [MCPServerConnection.connect, hact, htr, hmcp, hping, hst]

/-- Witness for C9: a ping answered with HTTP 200 and a JSON-RPC error body
lacking the version marker still connects and marks the connection active. -/
theorem claim_C9_witness :
    (MCPServerConnection.connect envErrorBodyPing jsonrpcConn).1 = true ∧
    (MCPServerConnection.connect envErrorBodyPing jsonrpcConn).2.1.connection_active =
      true := by
  have h := claim_C9_fallback_connect envErrorBodyPing jsonrpcConn (by decide) rfl rfl
  have h1 : (MCPServerConnection.connect envErrorBodyPing jsonrpcConn).1 = true :=
    h.1.mpr ⟨200, _, rfl, by decide, _, rfl⟩
  exact ⟨h1, by rw [h.2, h1]⟩

/-- C7.  Executing a tool with no routing entry returns exactly the
unregistered-tool error result, with the manager unchanged and an empty
external trace: no server connection operation runs. -/
theorem claim_C7_unknown_tool (env : MCPEnv) (m : MCPConnectionManager)
    (tool_id : String) (input_data : Json)
    (h : dictGet m.tool_to_server_map (Json.str tool_id) = none) :
    MCPConnectionManager.execute_tool env m tool_id input_data =
      (Json.obj [("status", Json.str "error"),
        ("message", Json.str ("Tool '" ++ tool_id ++ "' is not registered with any server"))],
       m, []) := by
  simp [MCPConnectionManager.execute_tool, h]

/-- C10.  A routing entry whose server exists but whose tool id names no
cached descriptor is not skipped: it yields the fabricated descriptor carrying
the tool id as name and a description naming the server, with the server id
and transport appended; an entry yields nothing exactly when its server is
absent from the server set; and every produced entry appears in the output of
`list_tools`.  (The object hypothesis marks the inputs on which the Python
descriptor lookup `tool.get` is defined.) -/
theorem claim_C10_stale_routes (m : MCPConnectionManager)
    (_hobj : ∀ p ∈ m.servers, ∀ t ∈ p.2.available_tools, t.isObj = true) :
    (∀ q ∈ m.tool_to_server_map, ∀ sid server,
      q.2 = Json.str sid → dictGet m.servers sid = some server →
      (∀ t ∈ server.available_tools, t.getField "name" ≠ some q.1) →
      toolEntry m q = some (Json.obj [("name", q.1),
        ("description", Json.str ("Tool on server " ++ sid)),
        ("server_id", Json.str sid),
        ("transport_type", Json.str server.transport_type)])) ∧
    (∀ q ∈ m.tool_to_server_map, (toolEntry m q = none ↔ serverFor m q.2 = none)) ∧
    (∀ q ∈ m.tool_to_server_map, ∀ e, toolEntry m q = some e →
      ∃ tools, (list_tools m).getField "tools" = some (Json.arr tools) ∧ e ∈ tools) := by
  refine ⟨?_, ?_, ?_⟩
  · intro q hq sid server hq2 hget habs
    have hf : server.available_tools.find?
        (fun t => t.getField "name" == some q.1) = none := by
      rw [List.find?_eq_none]
      intro t ht
      simpa using habs t ht
    have hserver : serverFor m (Json.str sid) = some server := hget
    simp [toolEntry, hserver, hf, hq2, pyStr, dictSet]
  · intro q hq
    cases hs : serverFor m q.2 with
    | none => simp [toolEntry, hs]
    | some server => simp [toolEntry, hs]
  · intro q hq e he
    refine ⟨m.tool_to_server_map.filterMap (toolEntry m), ?_, ?_⟩
    · simp [list_tools, Json.getField, dictGet]
    · exact List.mem_filterMap.mpr ⟨q, hq, he⟩

/-- Witness for C10: the manager holding server weather with an empty cached
tool list and the stale route forecast still lists the fabricated forecast
descriptor. -/
theorem claim_C10_witness :
    toolEntry mgrWeather (Json.str "forecast", Json.str "weather") =
      some (Json.obj [("name", Json.str "forecast"),
        ("description", Json.str ("Tool on server " ++ "weather")),
        ("server_id", Json.str "weather"),
        ("transport_type", Json.str "jsonrpc")]) :=
  (claim_C10_stale_routes mgrWeather (by decide)).1
    (Json.str "forecast", Json.str "weather") (by decide) "weather"
    (MCPServerConnection.init "weather" "http://localhost:8500" "jsonrpc" false [])
    rfl (by decide) (by decide)

/-- Helper for C6: the registry data a manager saves always passes the shape
check the loader needs. -/
theorem registryWF_registryData (m : MCPConnectionManager) :
    registryWF (registryData m) = true := by
  simp only [registryWF, registryData, Json.isObj, Json.getField, dictGet]
  simp only [Bool.true_and, reduceIte]
  rw [Bool.and_eq_true, List.all_eq_true]
  refine ⟨fun p hp => ?_, rfl⟩
  obtain ⟨a, _, rfl⟩ := List.mem_map.mp hp
  rfl

/-- Helper for C6: rehydrating the entry saved for a connection rebuilds a
fresh connection from the same url, transport and params. -/
theorem loadServer_registryEntry (sid : String) (c : MCPServerConnection) :
    loadServer (sid, Json.obj [("url", Json.str c.server_url),
      ("transport_type", Json.str c.transport_type),
      ("connection_params", Json.obj c.connection_params)]) =
    (sid, MCPServerConnection.init sid c.server_url c.transport_type false
      c.connection_params) := rfl

/-- C6.  Round-trip persistence: what `save_registry` writes is `registryData`,
and loading that value back into a fresh manager succeeds and restores every
server's persisted fields (url, transport type, connection params, in order)
and the routing table exactly.  The hypotheses state that the manager's
transports are lowercase-fixed and its routing keys are strings — invariants
of every manager the code builds, since the constructor lowercases the
transport and `json.dump` stringifies keys. -/
theorem claim_C6_round_trip (m : MCPConnectionManager) (path : String)
    (hlower : ∀ p ∈ m.servers, pyLower p.2.transport_type = p.2.transport_type)
    (hkeys : ∀ q ∈ m.tool_to_server_map, ∃ s, q.1 = Json.str s) :
    (save_registry { m with registry_path := some path }).2 = some (registryData m) ∧
    (load_registry (fun _ => some (.valid (registryData m)))
      MCPConnectionManager.init (some path)).1 = true ∧
    (load_registry (fun _ => some (.valid (registryData m)))
      MCPConnectionManager.init (some path)).2.servers.map
        (fun p => (p.1, serverPersisted p.2)) =
      m.servers.map (fun p => (p.1, serverPersisted p.2)) ∧
    (load_registry (fun _ => some (.valid (registryData m)))
      MCPConnectionManager.init (some path)).2.tool_to_server_map =
      m.tool_to_server_map := by
  refine ⟨by simp [save_registry, registryData], ?_⟩
  have hwf := registryWF_registryData m
  have hload : load_registry (fun _ => some (.valid (registryData m)))
      MCPConnectionManager.init (some path) =
      (true, { MCPConnectionManager.init with
        registry_path := some path,
        servers := (m.servers.map (fun p =>
          (p.1, Json.obj [("url", Json.str p.2.server_url),
            ("transport_type", Json.str p.2.transport_type),
            ("connection_params", Json.obj p.2.connection_params)]))).map loadServer,
        tool_to_server_map := (m.tool_to_server_map.map (fun q =>
          (jsonKey q.1, q.2))).map (fun q => (Json.str q.1, q.2)) }) := by
    simp only [load_registry, MCPConnectionManager.init, hwf, Bool.not_true,
      Bool.false_eq_true, if_false]
    simp [registryData, Json.getField, dictGet]
  rw [hload]
  refine ⟨rfl, ?_, ?_⟩
  · rw [List.map_map, List.map_map]
    refine List.map_congr_left ?_
    intro p hp
    show (p.1, (p.2.server_url, pyLower p.2.transport_type, p.2.connection_params)) =
      (p.1, serverPersisted p.2)
    rw [hlower p hp]
    rfl
  · show (m.tool_to_server_map.map (fun q => (jsonKey q.1, q.2))).map
        (fun q => (Json.str q.1, q.2)) = m.tool_to_server_map
    rw [List.map_map]
    have hid : ∀ q ∈ m.tool_to_server_map,
        ((fun q => (Json.str q.1, q.2)) ∘ fun q => (jsonKey q.1, q.2)) q = id q := by
      intro q hq
      obtain ⟨s, hs⟩ := hkeys q hq
      obtain ⟨q1, q2⟩ := q
      have hs2 : q1 = Json.str s := hs
      subst hs2
      simp [Function.comp, jsonKey]
    rw [List.map_congr_left hid, List.map_id]

/-- Witness for C6 at the concrete weather manager. -/
theorem claim_C6_witness :
    (load_registry (fun _ => some (.valid (registryData mgrWeather)))
      MCPConnectionManager.init (some "registry.json")).1 = true ∧
    (load_registry (fun _ => some (.valid (registryData mgrWeather)))
      MCPConnectionManager.init (some "registry.json")).2.servers.map
        (fun p => (p.1, serverPersisted p.2)) =
      mgrWeather.servers.map (fun p => (p.1, serverPersisted p.2)) ∧
    (load_registry (fun _ => some (.valid (registryData mgrWeather)))
      MCPConnectionManager.init (some "registry.json")).2.tool_to_server_map =
      mgrWeather.tool_to_server_map :=
  (claim_C6_round_trip mgrWeather "registry.json"
    (by intro p hp
        rw [show mgrWeather.servers = [("weather", MCPServerConnection.init "weather"
          "http://localhost:8500" "jsonrpc" false [])] from rfl, List.mem_singleton] at hp
        subst hp
        decide)
    (by intro q hq
        rw [show mgrWeather.tool_to_server_map =
          [(Json.str "forecast", Json.str "weather")] from rfl, List.mem_singleton] at hq
        subst hq
        exact ⟨"forecast", rfl⟩)).2

/-- Witness for C7 on a concrete manager and unknown tool id. -/
theorem claim_C7_witness :
    MCPConnectionManager.execute_tool envUnreachable mgrWeather "unknown-tool" (Json.obj []) =
      (Json.obj [("status", Json.str "error"),
        ("message", Json.str ("Tool '" ++ "unknown-tool" ++
          "' is not registered with any server"))],
       mgrWeather, []) :=
  claim_C7_unknown_tool envUnreachable mgrWeather "unknown-tool" (Json.obj []) (by decide)

end MCP
